import Mathlib

/-!
Verification of the SCTE-35 Splice Information Table generator
(`lib/upipe-ts/upipe_ts_scte35_generator.c`).

The development shallowly embeds the generator: machine integers become
`Nat` with explicit `% 2^w` where wrap matters, the byte buffer handed out
by the ubuf manager becomes a function `Nat → Nat` holding byte values,
and each static C function of the generator becomes a Lean function on an
explicit state record.  Allocation-failure branches (which merely throw
`UBASE_ERR_ALLOC` and leave the state untouched) are not modelled: every
allocation is assumed to succeed, which is the path all claims speak about.
-/

set_option maxHeartbeats 1000000
set_option maxRecDepth 10000

/-! ### Constants (upipe_ts_scte35_generator.c and the PSI/TS headers) -/

/-- UCLOCK_FREQ: all host timestamps are at 27 MHz. -/
def UCLOCK_FREQ : Nat := 27000000

/-- T-STD TB octet rate for PSI tables (`#define TB_RATE_PSI 125000`). -/
def TB_RATE_PSI : Nat := 125000

/-- 2^33, max resolution of PCR, PTS and DTS (`#define POW2_33`). -/
def POW2_33 : Nat := 8589934592

/-- ratio between Upipe freq and MPEG freq (`UCLOCK_FREQ / 90000` = 300). -/
def CLOCK_SCALE : Nat := UCLOCK_FREQ / 90000

def PSI_HEADER_SIZE : Nat := 3
def PSI_CRC_SIZE : Nat := 4
def PSI_MAX_SIZE : Nat := 1021
def TS_SIZE : Nat := 188
def TS_HEADER_SIZE : Nat := 4

def SCTE35_HEADER_SIZE : Nat := PSI_HEADER_SIZE + 11
def SCTE35_HEADER2_SIZE : Nat := 2
def SCTE35_INSERT_HEADER_SIZE : Nat := 5
def SCTE35_INSERT_HEADER2_SIZE : Nat := 1
def SCTE35_INSERT_FOOTER_SIZE : Nat := 4
def SCTE35_SPLICE_TIME_HEADER_SIZE : Nat := 1
def SCTE35_SPLICE_TIME_TIME_SIZE : Nat := 4
def SCTE35_BREAK_DURATION_HEADER_SIZE : Nat := 5
def DESC_HEADER_SIZE : Nat := 2

def SCTE35_NULL_COMMAND : Nat := 0x00
def SCTE35_INSERT_COMMAND : Nat := 0x05
def SCTE35_TIME_SIGNAL_COMMAND : Nat := 0x06

/-! ### Byte buffer

The ubuf block the generator writes into (always allocated with capacity
`PSI_MAX_SIZE + PSI_HEADER_SIZE` = 1024 bytes and later trimmed).  We model
it as a total function from offsets to byte values; a fresh block is
all-zero. -/

def Buf : Type := Nat → Nat

def zeroBuf : Buf := fun _ => 0

def getByte (b : Buf) (i : Nat) : Nat := b i

/-- Store one byte (uint8_t store, hence the `% 256`). -/
def setByte (b : Buf) (i v : Nat) : Buf :=
  fun j => if j = i then v % 256 else b j

/-- Store a run of bytes starting at `off`. -/
def writeBytes (b : Buf) (off : Nat) : List Nat → Buf
  | [] => b
  | v :: rest => writeBytes (setByte b off v) (off + 1) rest

/-- The first `n` bytes of the buffer, as produced by
`ubuf_block_resize(ubuf, 0, n)`. -/
def bufTake (b : Buf) (n : Nat) : List Nat :=
  (List.range n).map b

/-! ### PSI / SCTE-35 field accessors

Modelled from the spec: the generator writes fields through the biTStream
macros of `bitstream/mpeg/psi.h` and `bitstream/scte/35.h`, whose headers
are not part of `src/`.  Each accessor below realises the corresponding
big-endian bit layout given in the spec ("On-wire PSI section layout"):

```
table_id            : 8   = 0xFC
section_syntax      : 1   = 0
private_indicator   : 1   = 0
reserved            : 2   = 0b11
section_length      : 12
protocol_version    : 8   = 0
encrypted_packet    : 1   = 0
encryption_alg      : 6   = 0
pts_adjustment      : 33  = 0
cw_index            : 8   = 0
tier                : 12  = 0xFFF
splice_command_len  : 12
splice_command_type : 8
<command body>      : splice_command_len * 8
descriptor_loop_len : 16
<descriptor loop>   : descriptor_loop_len * 8
CRC_32              : 32
```

`x / 2^k % 2^w` extracts the `w`-bit field starting at bit `k`, exactly as
the C shift-and-mask macros do. -/

/-- Set a single bit of a byte value (read-modify-write). -/
def setBitB (x k : Nat) (v : Bool) : Nat :=
  x - x / 2 ^ k % 2 * 2 ^ k + (if v then 2 ^ k else 0)

/-- `psi_set_length`: 12-bit `section_length`, low nibble of byte 1 and
byte 2. -/
def psi_set_length (b : Buf) (len : Nat) : Buf :=
  setByte (setByte b 1 (getByte b 1 / 16 * 16 + len / 256 % 16)) 2 (len % 256)

/-- `psi_get_length`. -/
def psi_get_length (b : Buf) : Nat :=
  getByte b 1 % 16 * 256 + getByte b 2

/-- `scte35_init` (includes `psi_init`): table_id `0xFC`, syntax and
private indicator 0, the two reserved bits 1, protocol_version 0,
encrypted_packet and encryption_algorithm 0, cw_index 0, tier `0xFFF`. -/
def scte35_init (b : Buf) : Buf :=
  let b := setByte b 0 0xFC
  let b := setByte b 1 0x30
  let b := setByte b 3 0x00
  let b := setByte b 4 0x00
  let b := setByte b 9 0x00
  let b := setByte b 10 0xFF
  setByte b 11 0xF0

/-- `scte35_set_pts_adjustment`: 33 bits, bit 0 of byte 4 then bytes
5..8. -/
def scte35_set_pts_adjustment (b : Buf) (v : Nat) : Buf :=
  let b := setByte b 4 (getByte b 4 - getByte b 4 % 2 + v / 2 ^ 32 % 2)
  let b := setByte b 5 (v / 2 ^ 24 % 256)
  let b := setByte b 6 (v / 2 ^ 16 % 256)
  let b := setByte b 7 (v / 2 ^ 8 % 256)
  setByte b 8 (v % 256)

def scte35_set_command_type (b : Buf) (t : Nat) : Buf :=
  setByte b 13 t

/-- 12-bit `splice_command_length`: low nibble of byte 11 and byte 12. -/
def scte35_set_command_length (b : Buf) (l : Nat) : Buf :=
  setByte (setByte b 11 (getByte b 11 / 16 * 16 + l / 256 % 16)) 12 (l % 256)

def scte35_get_command_length (b : Buf) : Nat :=
  getByte b 11 % 16 * 256 + getByte b 12

/-- `scte35_null_init`. -/
def scte35_null_init (b : Buf) : Buf :=
  scte35_set_command_length (scte35_set_command_type b SCTE35_NULL_COMMAND) 0

/-- `scte35_insert_init i_length`: command length is
`SCTE35_INSERT_HEADER_SIZE + i_length`. -/
def scte35_insert_init (b : Buf) (i_length : Nat) : Buf :=
  scte35_set_command_length (scte35_set_command_type b SCTE35_INSERT_COMMAND)
    (SCTE35_INSERT_HEADER_SIZE + i_length)

/-- `scte35_time_signal_init i_length`: command length is
`SCTE35_SPLICE_TIME_HEADER_SIZE + i_length`. -/
def scte35_time_signal_init (b : Buf) (i_length : Nat) : Buf :=
  scte35_set_command_length
    (scte35_set_command_type b SCTE35_TIME_SIGNAL_COMMAND)
    (SCTE35_SPLICE_TIME_HEADER_SIZE + i_length)

/-- `scte35_insert_set_event_id`: 32 bits at the start of the command
body (bytes 14..17). -/
def scte35_insert_set_event_id (b : Buf) (v : Nat) : Buf :=
  let b := setByte b 14 (v / 2 ^ 24 % 256)
  let b := setByte b 15 (v / 2 ^ 16 % 256)
  let b := setByte b 16 (v / 2 ^ 8 % 256)
  setByte b 17 (v % 256)

/-- `scte35_insert_set_cancel`: cancel bit plus 7 reserved bits (set to 1)
in byte 18. -/
def scte35_insert_set_cancel (b : Buf) (v : Bool) : Buf :=
  setByte b 18 (0x7F + if v then 0x80 else 0)

/-- Flags byte (byte 19) of a non-cancelled splice_insert. -/
def scte35_insert_set_out_of_network (b : Buf) (v : Bool) : Buf :=
  setByte b 19 (setBitB (getByte b 19) 7 v)

def scte35_insert_set_program_splice (b : Buf) (v : Bool) : Buf :=
  setByte b 19 (setBitB (getByte b 19) 6 v)

def scte35_insert_set_duration (b : Buf) (v : Bool) : Buf :=
  setByte b 19 (setBitB (getByte b 19) 5 v)

def scte35_insert_set_splice_immediate (b : Buf) (v : Bool) : Buf :=
  setByte b 19 (setBitB (getByte b 19) 4 v)

def scte35_insert_has_splice_immediate (b : Buf) : Bool :=
  getByte b 19 / 16 % 2 = 1

def scte35_insert_has_duration (b : Buf) : Bool :=
  getByte b 19 / 32 % 2 = 1

/-- `splice_time()` structure: `time_specified_flag` (bit 7), 6 reserved
bits (1), and when specified a 33-bit `pts_time` whose top bit is bit 0 of
the first byte followed by 4 bytes. -/
def scte35_splice_time_init (b : Buf) (off : Nat) : Buf :=
  setByte b off 0x7E

def scte35_splice_time_set_time_specified (b : Buf) (off : Nat) (v : Bool) :
    Buf :=
  setByte b off (setBitB (getByte b off) 7 v)

def scte35_splice_time_set_pts_time (b : Buf) (off v : Nat) : Buf :=
  let b := setByte b off (getByte b off - getByte b off % 2 + v / 2 ^ 32 % 2)
  let b := setByte b (off + 1) (v / 2 ^ 24 % 256)
  let b := setByte b (off + 2) (v / 2 ^ 16 % 256)
  let b := setByte b (off + 3) (v / 2 ^ 8 % 256)
  setByte b (off + 4) (v % 256)

/-- `scte35_splice_time_size`: 1 byte, plus 4 when time is specified. -/
def scte35_splice_time_size (b : Buf) (off : Nat) : Nat :=
  SCTE35_SPLICE_TIME_HEADER_SIZE +
    (if getByte b off / 128 % 2 = 1 then SCTE35_SPLICE_TIME_TIME_SIZE else 0)

/-- `break_duration()` structure: `auto_return` (bit 7), 6 reserved bits
(1), 33-bit duration. -/
def scte35_break_duration_init (b : Buf) (off : Nat) : Buf :=
  setByte b off 0x7E

def scte35_break_duration_set_auto_return (b : Buf) (off : Nat) (v : Bool) :
    Buf :=
  setByte b off (setBitB (getByte b off) 7 v)

def scte35_break_duration_set_duration (b : Buf) (off v : Nat) : Buf :=
  let b := setByte b off (getByte b off - getByte b off % 2 + v / 2 ^ 32 % 2)
  let b := setByte b (off + 1) (v / 2 ^ 24 % 256)
  let b := setByte b (off + 2) (v / 2 ^ 16 % 256)
  let b := setByte b (off + 3) (v / 2 ^ 8 % 256)
  setByte b (off + 4) (v % 256)

/-- `scte35_insert_get_splice_time`: right after the insert header and
flags byte. -/
def scte35_insert_splice_time_off : Nat :=
  SCTE35_HEADER_SIZE + SCTE35_INSERT_HEADER_SIZE + SCTE35_INSERT_HEADER2_SIZE

/-- `scte35_insert_get_break_duration`: after the optional splice_time
(the macro reads the splice_immediate flag back from the buffer). -/
def scte35_insert_break_duration_off (b : Buf) : Nat :=
  if scte35_insert_has_splice_immediate b then scte35_insert_splice_time_off
  else scte35_insert_splice_time_off +
    scte35_splice_time_size b scte35_insert_splice_time_off

/-- Footer position: after the optional break_duration. -/
def scte35_insert_footer_off (b : Buf) : Nat :=
  scte35_insert_break_duration_off b +
    (if scte35_insert_has_duration b then SCTE35_BREAK_DURATION_HEADER_SIZE
     else 0)

def scte35_insert_set_unique_program_id (b : Buf) (v : Nat) : Buf :=
  let off := scte35_insert_footer_off b
  setByte (setByte b off (v / 256 % 256)) (off + 1) (v % 256)

def scte35_insert_set_avail_num (b : Buf) (v : Nat) : Buf :=
  setByte b (scte35_insert_footer_off b + 2) v

def scte35_insert_set_avails_expected (b : Buf) (v : Nat) : Buf :=
  setByte b (scte35_insert_footer_off b + 3) v

/-- `scte35_get_descl`: the descriptor loop starts after the command body
and the 16-bit `descriptor_loop_length` field. -/
def scte35_get_descl_off (b : Buf) : Nat :=
  SCTE35_HEADER_SIZE + scte35_get_command_length b + SCTE35_HEADER2_SIZE

/-- `scte35_set_desclength`: 16-bit field right after the command body. -/
def scte35_set_desclength (b : Buf) (l : Nat) : Buf :=
  let off := SCTE35_HEADER_SIZE + scte35_get_command_length b
  setByte (setByte b off (l / 256 % 256)) (off + 1) (l % 256)

def scte35_get_desclength (b : Buf) : Nat :=
  let off := SCTE35_HEADER_SIZE + scte35_get_command_length b
  getByte b off * 256 + getByte b (off + 1)

/-! ### CRC-32/MPEG-2

Polynomial 0x04C11DB7, initial value 0xFFFFFFFF, no reflection, no
xor-out, computed over all bytes before the 4-byte CRC field
(`psi_set_crc`). -/

def crc32_mpeg2_bit (c : Nat) : Nat :=
  if c / 2 ^ 31 % 2 = 1 then (c * 2 ^^^ 0x04C11DB7) % 2 ^ 32
  else c * 2 % 2 ^ 32

def crc32_mpeg2_byte (c v : Nat) : Nat :=
  crc32_mpeg2_bit (crc32_mpeg2_bit (crc32_mpeg2_bit (crc32_mpeg2_bit
    (crc32_mpeg2_bit (crc32_mpeg2_bit (crc32_mpeg2_bit (crc32_mpeg2_bit
      ((c ^^^ v * 2 ^ 24) % 2 ^ 32))))))))

def crc32_mpeg2 (l : List Nat) : Nat :=
  l.foldl crc32_mpeg2_byte 0xFFFFFFFF

/-- `psi_set_crc`: the section ends at `psi_get_length + PSI_HEADER_SIZE`;
the CRC covers everything before its own 4 bytes. -/
def psi_set_crc (b : Buf) : Buf :=
  let pend := psi_get_length b + PSI_HEADER_SIZE - PSI_CRC_SIZE
  let crc := crc32_mpeg2 (bufTake b pend)
  writeBytes b pend
    [crc / 2 ^ 24 % 256, crc / 2 ^ 16 % 256, crc / 2 ^ 8 % 256, crc % 256]

/-! ### Input records

`struct uref` as the generator reads it: clock and SCTE-35 attributes plus
the block `start`/`end` flags.  `none` (for optionals) models an absent
attribute, i.e. the C getter leaving its default in place
(`UINT64_MAX` for pts_prog/duration, 0 for the others). -/

structure Uref where
  command_type : Option Nat
  pts_prog : Option Nat
  duration : Option Nat
  pts_sys : Option Nat
  event_id : Option Nat
  cancel : Bool
  out_of_network : Bool
  auto_return : Bool
  unique_program_id : Option Nat
  start : Bool
  end_ : Bool
  /-- descriptor payload carried by a continuation record (consumed by
  `upipe_ts_scte_export_desc`). -/
  descriptor : Option (List Nat)
deriving DecidableEq

/-- Modelled from the spec: `upipe_ts_scte_export_desc`
(upipe_ts_scte_common.c, not under `src/`) exports a descriptor uref "as
an opaque byte run starting with `splice_descriptor_tag` and
`descriptor_length`"; on failure the descriptor is skipped.  The exported
run is well formed: its length byte (index 1) equals the byte count after
the 2-byte descriptor header, and every entry is a byte. -/
def upipe_ts_scte_export_desc (u : Uref) : Option (List Nat) :=
  match u.descriptor with
  | none => none
  | some d =>
    if d.length = DESC_HEADER_SIZE + d.getD 1 0 ∧ ∀ x ∈ d, x < 256 then
      some d
    else none

/-! ### Section builders -/

/-- Body of the `for ( ; ; )` loop of `upipe_ts_scte35g_input_insert`, for
one pass with the given `pts_prog` (`none` models `UINT64_MAX`).  The loop
runs the first pass with the event's pts_prog and, when that was present,
one more pass with `pts_prog = UINT64_MAX`; each pass is this function. -/
def scte35g_insert_section (cancel : Bool) (event_id : Nat)
    (out_of_network : Bool) (pts_prog : Option Nat) (duration : Option Nat)
    (auto_return : Bool) (program_id : Nat) : List Nat :=
  let b := scte35_init zeroBuf
  let b := psi_set_length b PSI_MAX_SIZE    -- set length later
  let b := scte35_set_pts_adjustment b 0
  let insert_size :=
    if cancel then 0 else
      SCTE35_INSERT_HEADER2_SIZE + SCTE35_INSERT_FOOTER_SIZE +
      (if pts_prog.isSome then
        SCTE35_SPLICE_TIME_HEADER_SIZE + SCTE35_SPLICE_TIME_TIME_SIZE
       else 0) +
      (if duration.isSome then SCTE35_BREAK_DURATION_HEADER_SIZE else 0)
  let b := scte35_insert_init b insert_size
  let b := scte35_insert_set_cancel b cancel
  let b := scte35_insert_set_event_id b event_id
  let b :=
    if cancel then b else
    let b := scte35_insert_set_out_of_network b out_of_network
    let b := scte35_insert_set_program_splice b true
    let b := scte35_insert_set_duration b duration.isSome
    let b := scte35_insert_set_splice_immediate b pts_prog.isNone
    let b :=
      match pts_prog with
      | none => b
      | some p =>
        let st := scte35_insert_splice_time_off
        let b := scte35_splice_time_init b st
        let b := scte35_splice_time_set_time_specified b st true
        scte35_splice_time_set_pts_time b st (p / CLOCK_SCALE % POW2_33)
    let b :=
      match duration with
      | none => b
      | some d =>
        let bd := scte35_insert_break_duration_off b
        let b := scte35_break_duration_init b bd
        let b := scte35_break_duration_set_auto_return b bd auto_return
        scte35_break_duration_set_duration b bd (d / CLOCK_SCALE % POW2_33)
    let b := scte35_insert_set_unique_program_id b program_id
    let b := scte35_insert_set_avail_num b 0
    scte35_insert_set_avails_expected b 0
  let b := scte35_set_desclength b 0
  let b := psi_set_length b
    (scte35_get_descl_off b + PSI_CRC_SIZE - PSI_HEADER_SIZE)
  let b := psi_set_crc b
  bufTake b (psi_get_length b + PSI_HEADER_SIZE)

/-- The descriptor loop of `upipe_ts_scte35g_time_signal`: walk the
remaining urefs, export each descriptor at the current end of the loop
(`descl + acc`), skip the ones whose export fails, and accumulate
`descl_length`.  For a well-formed export `d`,
`DESC_HEADER_SIZE + scte35_splice_desc_get_length(desc)` read back from
the buffer equals `d.length`, which is what we add. -/
def time_signal_write_descs (descl : Nat) :
    Buf → Nat → List Uref → Buf × Nat
  | b, acc, [] => (b, acc)
  | b, acc, u :: rest =>
    match upipe_ts_scte_export_desc u with
    | none => time_signal_write_descs descl b acc rest
    | some d =>
      time_signal_write_descs descl (writeBytes b (descl + acc) d)
        (acc + d.length) rest

/-- Body of the `for ( ; ; )` loop of `upipe_ts_scte35g_time_signal`.
`pts_orig = (pts_prog / CLOCK_SCALE) % POW2_33` is computed once, before
the loop, so both passes of the loop serialize against it; the section
bytes only depend on `pts_prog` through `pts_orig`, hence both the
scheduled and the immediate form are this same function of the event's
`pts_prog` and the descriptor urefs. -/
def scte35g_time_signal_section (pts_prog : Option Nat)
    (descs : List Uref) : List Nat :=
  let pts_orig := pts_prog.map fun p => p / CLOCK_SCALE % POW2_33
  let b := scte35_init zeroBuf
  let b := psi_set_length b PSI_MAX_SIZE    -- set length later
  let b := scte35_set_pts_adjustment b 0
  let i_size := if pts_orig.isSome then SCTE35_SPLICE_TIME_TIME_SIZE else 0
  let b := scte35_time_signal_init b i_size
  let t := SCTE35_HEADER_SIZE    -- scte35_time_signal_get_splice_time
  let b := scte35_splice_time_init b t
  let b := scte35_splice_time_set_time_specified b t pts_orig.isSome
  let b :=
    match pts_orig with
    | none => b
    | some v => scte35_splice_time_set_pts_time b t v
  let descl := scte35_get_descl_off b
  let bl := time_signal_write_descs descl b 0 descs
  let b := bl.1
  let descl_length := bl.2
  let b := scte35_set_desclength b descl_length
  let b := psi_set_length b
    (scte35_get_descl_off b + PSI_CRC_SIZE - PSI_HEADER_SIZE + descl_length)
  let b := psi_set_crc b
  bufTake b (psi_get_length b + PSI_HEADER_SIZE)

/-- `upipe_ts_scte35g_build_null`'s section bytes (the builder writes no
variable field, so the result is a constant). -/
def scte35g_null_section_bytes : List Nat :=
  let b := scte35_init zeroBuf
  let b := psi_set_length b PSI_MAX_SIZE    -- set length later
  let b := scte35_set_pts_adjustment b 0
  let b := scte35_null_init b
  let b := scte35_set_desclength b 0
  let b := psi_set_length b
    (scte35_get_descl_off b + PSI_CRC_SIZE - PSI_HEADER_SIZE)
  let b := psi_set_crc b
  bufTake b (psi_get_length b + PSI_HEADER_SIZE)

/-! ### Generator state and operations -/

/-- `struct scte35_message`: `ubuf` holds the scheduled (PTS-stamped)
form, `immediate` the catch-up form, `cr_sys` the deadline. -/
structure scte35_message where
  ubuf : Option (List Nat)
  immediate : Option (List Nat)
  cr_sys : Nat
deriving DecidableEq

/-- A uref sent downstream by `upipe_ts_scte35g_send`: a duplicated
section stamped with the tick date; `uref_block_set_start` and
`uref_block_set_end` are always applied, so the record always has
`start = end = true` and they are not tracked. -/
structure OutputRecord where
  bytes : List Nat
  cr_sys : Nat
deriving DecidableEq

/-- Output flow definition built by `upipe_ts_scte35g_build_flow_def`. -/
structure TsFlowDef where
  flow_def : String
  psi_section_interval : Nat
  octetrate : Nat
  tb_rate : Nat
deriving DecidableEq

/-- `struct upipe_ts_scte35g` (the fields the claims are about), plus the
observable interaction with the output helper: `output` records every
uref sent downstream, `flow_def_publications` counts the calls to
`upipe_ts_scte35g_store_flow_def`. -/
structure upipe_ts_scte35g where
  /-- input flow definition (its flow def string). -/
  flow_def : Option String
  /-- buffered input urefs (the reassembly accumulator). -/
  urefs : List Uref
  scte35_interval : Nat
  /-- SCTE-35 last cr_sys (`last_emit_cr_sys` in the spec). -/
  scte35_cr_sys : Nat
  scte35_null_section : Option (List Nat)
  /-- list of SCTE-35 messages (the pending-sections queue). -/
  scte35_sections : List scte35_message
  output_flow_def : Option TsFlowDef
  flow_def_publications : Nat
  output : List OutputRecord
deriving DecidableEq

/-- The state right after `upipe_ts_scte35g_alloc`. -/
def upipe_ts_scte35g_alloc : upipe_ts_scte35g :=
  { flow_def := none
    urefs := []
    scte35_interval := 0
    scte35_cr_sys := 0
    scte35_null_section := none
    scte35_sections := []
    output_flow_def := none
    flow_def_publications := 0
    output := [] }

/-- `upipe_ts_scte35g_input_insert`: pop the first uref, read its
attributes, build the scheduled form (when pts_prog is present) and the
immediate form (always: the loop re-runs with `pts_prog = UINT64_MAX`),
append the message and force the next tick (`scte35_cr_sys = 0`). -/
def upipe_ts_scte35g_input_insert (s : upipe_ts_scte35g) :
    upipe_ts_scte35g :=
  match s.urefs with
  | [] => s
  | u :: rest =>
    let cr_sys := u.pts_sys.getD 0
    let sched := u.pts_prog.map fun _ =>
      scte35g_insert_section u.cancel (u.event_id.getD 0) u.out_of_network
        u.pts_prog u.duration u.auto_return (u.unique_program_id.getD 0)
    let imm :=
      scte35g_insert_section u.cancel (u.event_id.getD 0) u.out_of_network
        none u.duration u.auto_return (u.unique_program_id.getD 0)
    { s with
      urefs := rest
      scte35_sections := s.scte35_sections ++
        [{ ubuf := sched, immediate := some imm, cr_sys := cr_sys }]
      scte35_cr_sys := 0 }

/-- `upipe_ts_scte35g_time_signal`: pop the first uref; the remaining
urefs of the accumulator carry the descriptors.  `pts_orig` is computed
once before the loop, so the immediate form serializes the very same
bytes as the scheduled one (see `scte35g_time_signal_section`). -/
def upipe_ts_scte35g_time_signal (s : upipe_ts_scte35g) :
    upipe_ts_scte35g :=
  match s.urefs with
  | [] => s
  | u :: rest =>
    let cr_sys := u.pts_sys.getD 0
    let sched := u.pts_prog.map fun _ =>
      scte35g_time_signal_section u.pts_prog rest
    let imm := scte35g_time_signal_section u.pts_prog rest
    { s with
      urefs := rest
      scte35_sections := s.scte35_sections ++
        [{ ubuf := sched, immediate := some imm, cr_sys := cr_sys }]
      scte35_cr_sys := 0 }

/-- `upipe_ts_scte35g_build_null`: a silent no-op without an input flow
definition, otherwise replaces the cached null section. -/
def upipe_ts_scte35g_build_null (s : upipe_ts_scte35g) :
    upipe_ts_scte35g :=
  if s.flow_def.isNone then s
  else { s with scte35_null_section := some scte35g_null_section_bytes }

/-- `upipe_ts_scte35g_flush`: dispatch on the first accumulated uref's
command type, then free the whole accumulator — except that the
`default:` branch of the switch returns before the drain loop, leaving
the accumulator in place. -/
def upipe_ts_scte35g_flush (s : upipe_ts_scte35g) : upipe_ts_scte35g :=
  match s.urefs with
  | [] => s
  | u :: _ =>
    match u.command_type with
    | none =>
      -- "no command type found": warn, then fall through to the drain
      { s with urefs := [] }
    | some command_type =>
      if command_type = SCTE35_INSERT_COMMAND then
        { upipe_ts_scte35g_input_insert s with urefs := [] }
      else if command_type = SCTE35_NULL_COMMAND then
        { upipe_ts_scte35g_build_null s with urefs := [] }
      else if command_type = SCTE35_TIME_SIGNAL_COMMAND then
        { upipe_ts_scte35g_time_signal s with urefs := [] }
      else
        -- "unimplemented command type": warn and return, WITHOUT draining
        s

/-- `upipe_ts_scte35g_input`.  `none` models a null/empty uref
(`uref == NULL || uref->udict == NULL`).  In that branch the C code runs
`ulist_foreach (&scte35g->urefs, uchain)` — the reassembly accumulator,
not the pending-sections queue — and reinterprets each uref node as a
`struct scte35_message` (`scte35_message_from_uchain`) before clearing
its `ubuf` field.  The pending `scte35_sections` list is never touched.
When the accumulator is empty the loop body does not run at all; the
type-confused mutation of uref nodes has no meaning for the typed state,
so the model leaves the state unchanged. -/
def upipe_ts_scte35g_input (s : upipe_ts_scte35g) (input : Option Uref) :
    upipe_ts_scte35g :=
  match input with
  | none => s
  | some u =>
    match u.command_type with
    | none => s    -- "no command type in packet": warn, drop the input
    | some _ =>
      let was_empty := s.urefs.isEmpty
      let s1 := if u.start ∧ was_empty = false then
          upipe_ts_scte35g_flush s    -- "force last event flush"
        else s
      let was_empty := if u.start ∧ was_empty = false then true
        else was_empty
      let s2 := { s1 with urefs := s1.urefs ++ [u] }
      if (was_empty = false ∨ u.start) ∧ u.end_ = false then
        s2    -- "wait for the next descriptor"
      else upipe_ts_scte35g_flush s2

/-- `upipe_ts_scte35g_build_flow_def`: nothing when the interval is zero,
otherwise store (publish) a fresh output flow definition. -/
def upipe_ts_scte35g_build_flow_def (s : upipe_ts_scte35g) :
    upipe_ts_scte35g :=
  if s.scte35_interval = 0 then s
  else
    { s with
      output_flow_def := some
        { flow_def := "block.mpegtspsi.mpegtsscte35."
          psi_section_interval := s.scte35_interval
          octetrate :=
            (TS_SIZE - TS_HEADER_SIZE - 1) * UCLOCK_FREQ / s.scte35_interval
          tb_rate := TB_RATE_PSI }
      flow_def_publications := s.flow_def_publications + 1 }

/-- Error codes (`enum ubase_err`, restricted to the values returned
here). -/
inductive UbaseErr where
  | none_
  | invalid
  | unhandled
deriving DecidableEq

/-- Character-list prefix test (kernel-friendly). -/
def charListPrefix : List Char → List Char → Bool
  | [], _ => true
  | _ :: _, [] => false
  | c :: cs, d :: ds => c = d && charListPrefix cs ds

/-- `uref_flow_match_def`: the flow definition string must start with the
required format tag. -/
def uref_flow_match_def (fd prefx : String) : Bool :=
  charListPrefix prefx.data fd.data

/-- `upipe_ts_scte35g_set_flow_def`: require the `void.scte35.` format
tag; on success replace the stored flow def, and only when none was
stored before (`scte35_change = scte35g->flow_def == NULL`) build the
null section and the output flow definition. -/
def upipe_ts_scte35g_set_flow_def (s : upipe_ts_scte35g)
    (flow_def : Option String) : UbaseErr × upipe_ts_scte35g :=
  match flow_def with
  | none => (UbaseErr.invalid, s)
  | some fd =>
    if uref_flow_match_def fd "void.scte35." = false then
      (UbaseErr.invalid, s)
    else
      let scte35_change := s.flow_def.isNone
      let s := { s with flow_def := some fd }
      if scte35_change then
        (UbaseErr.none_,
          upipe_ts_scte35g_build_flow_def (upipe_ts_scte35g_build_null s))
      else (UbaseErr.none_, s)

/-- `upipe_ts_scte35g_set_scte35_interval`. -/
def upipe_ts_scte35g_set_scte35_interval (s : upipe_ts_scte35g)
    (interval : Nat) : upipe_ts_scte35g :=
  upipe_ts_scte35g_build_flow_def { s with scte35_interval := interval }

/-- `upipe_ts_scte35g_send`: duplicate the section, stamp it with
`cr_sys`, output it, and record the emission date. -/
def upipe_ts_scte35g_send (s : upipe_ts_scte35g) (sec : List Nat)
    (cr_sys : Nat) : upipe_ts_scte35g :=
  { s with
    output := s.output ++ [{ bytes := sec, cr_sys := cr_sys }]
    scte35_cr_sys := cr_sys }

/-- The `ulist_delete_foreach` traversal of `upipe_ts_scte35g_prepare`,
head first: a message past its deadline sends its immediate form (if any)
and is deleted; a future message has its immediate form cleared, sends
its scheduled form (if any) and is kept.  Returns the sections sent (in
traversal order) and the surviving queue. -/
def prepare_loop (cr_sys : Nat) :
    List scte35_message → List (List Nat) × List scte35_message
  | [] => ([], [])
  | msg :: rest =>
    let or := prepare_loop cr_sys rest
    if msg.cr_sys < cr_sys then
      match msg.immediate with
      | some sec => (sec :: or.1, or.2)
      | none => (or.1, or.2)
    else
      match msg.ubuf with
      | some sec => (sec :: or.1, { msg with immediate := none } :: or.2)
      | none => (or.1, { msg with immediate := none } :: or.2)

/-- `upipe_ts_scte35g_prepare` (the tick).  The activity preconditions
mirror lines 717-721; after the traversal the null section is sent iff
nothing was (`handled`).  Every send sets `scte35_cr_sys = cr_sys`, and
on a qualifying tick at least one send happens, so the final
`scte35_cr_sys` is `cr_sys`. -/
def upipe_ts_scte35g_prepare (s : upipe_ts_scte35g)
    (cr_sys latency : Nat) : upipe_ts_scte35g :=
  if s.flow_def.isNone ∨ s.scte35_null_section.isNone ∨
      s.scte35_interval = 0 ∨ cr_sys < s.scte35_cr_sys + s.scte35_interval
  then s
  else
    let ok := prepare_loop cr_sys s.scte35_sections
    let handled := ok.1.isEmpty = false
    let sent := if handled then ok.1 else [s.scte35_null_section.getD []]
    { s with
      scte35_sections := ok.2
      output := s.output ++
        sent.map fun sec => { bytes := sec, cr_sys := cr_sys }
      scte35_cr_sys := cr_sys }

/-! ### Scheduler lemmas -/

/-- The traversal, characterised: the sections sent are, in insertion
order, the immediate form of every expired message and the scheduled form
of every future one (when present); the surviving queue keeps exactly the
future messages, with their immediate forms cleared. -/
theorem prepare_loop_eq (cr : Nat) (l : List scte35_message) :
    prepare_loop cr l =
      (l.filterMap (fun m => if m.cr_sys < cr then m.immediate else m.ubuf),
        (l.filter fun m => cr ≤ m.cr_sys).map
          fun m => { m with immediate := none }) := by
  induction l with
  | nil => rfl
  | cons m rest ih =>
    simp only [prepare_loop, ih, List.filterMap_cons, List.filter_cons]
    by_cases h : m.cr_sys < cr
    · have h' : ¬ cr ≤ m.cr_sys := by omega
      rcases hi : m.immediate with _ | sec <;> simp [h, h', hi]
    · have h' : cr ≤ m.cr_sys := by omega
      rcases hu : m.ubuf with _ | sec <;> simp [h, h', hu]

/-! ### C1: emission-scheduler traversal -/

/-- C1: on every qualifying tick, the pending queue is traversed in
insertion order; a message whose deadline has passed (`M.cr_sys < cr_sys`)
emits its immediate form when present and is removed in either case; a
message whose deadline is in the future has its immediate form cleared,
emits its scheduled form when present, and stays in the queue; when no
message emitted anything, a duplicate of the null section is emitted. -/
theorem upipe_ts_scte35g_prepare_traversal (s : upipe_ts_scte35g)
    (cr_sys latency : Nat)
    (hflow : s.flow_def ≠ none) (hnull : s.scte35_null_section ≠ none)
    (hint : s.scte35_interval ≠ 0)
    (hdue : s.scte35_cr_sys + s.scte35_interval ≤ cr_sys) :
    upipe_ts_scte35g_prepare s cr_sys latency =
      { s with
        scte35_sections :=
          (s.scte35_sections.filter fun m => cr_sys ≤ m.cr_sys).map
            fun m => { m with immediate := none }
        output := s.output ++
          (if (s.scte35_sections.filterMap fun m =>
                if m.cr_sys < cr_sys then m.immediate else m.ubuf).isEmpty
           then [{ bytes := s.scte35_null_section.getD [],
                   cr_sys := cr_sys }]
           else (s.scte35_sections.filterMap fun m =>
                if m.cr_sys < cr_sys then m.immediate else m.ubuf).map
              fun sec => { bytes := sec, cr_sys := cr_sys })
        scte35_cr_sys := cr_sys } := by
  rw [upipe_ts_scte35g_prepare, if_neg]
  · rw [prepare_loop_eq]
    by_cases hE : (s.scte35_sections.filterMap fun m =>
        if m.cr_sys < cr_sys then m.immediate else m.ubuf).isEmpty
    · simp [hE]
    · simp [hE]
  · simp only [not_or, Option.isNone_iff_eq_none]
    exact ⟨hflow, hnull, hint, by omega⟩

/-- Concrete state for exercising the traversal: one expired message with
only an immediate form, one future message with both forms. -/
def c1_witness_state : upipe_ts_scte35g :=
  { flow_def := some "void.scte35."
    urefs := []
    scte35_interval := 1
    scte35_cr_sys := 0
    scte35_null_section := some [7]
    scte35_sections :=
      [{ ubuf := none, immediate := some [1], cr_sys := 3 },
       { ubuf := some [2], immediate := some [9], cr_sys := 15 }]
    output_flow_def := none
    flow_def_publications := 0
    output := [] }

/-- Witness for C1 at a concrete qualifying tick: the expired message
emits its immediate form and disappears, the future message emits its
scheduled form, loses its immediate form and stays. -/
theorem upipe_ts_scte35g_prepare_traversal_witness :
    upipe_ts_scte35g_prepare c1_witness_state 10 0 =
      { c1_witness_state with
        scte35_sections := [{ ubuf := some [2], immediate := none,
                              cr_sys := 15 }]
        output := [{ bytes := [1], cr_sys := 10 },
                   { bytes := [2], cr_sys := 10 }]
        scte35_cr_sys := 10 } := by
  have h := upipe_ts_scte35g_prepare_traversal c1_witness_state 10 0
    (by decide) (by decide) (by decide) (by decide)
  exact h.trans (by decide)

/-! ### C2: interval gating -/

/-- C2 (amended): with the activity preconditions satisfied, a tick
either comes before `last_emit + interval` and changes nothing, or emits
AT LEAST one section (the code emits one section per pending message that
has an applicable form, or the null fallback — not "exactly one") and
advances `scte35_cr_sys` to `cr_sys`; and whenever an activity
precondition fails the tick returns without emitting and without changing
state. -/
theorem upipe_ts_scte35g_prepare_interval_invariant (s : upipe_ts_scte35g)
    (cr_sys latency : Nat) :
    ((s.flow_def ≠ none ∧ s.scte35_null_section ≠ none ∧
        s.scte35_interval ≠ 0) →
      ((cr_sys < s.scte35_cr_sys + s.scte35_interval ∧
          upipe_ts_scte35g_prepare s cr_sys latency = s) ∨
        (s.scte35_cr_sys + s.scte35_interval ≤ cr_sys ∧
          s.output.length + 1 ≤
            (upipe_ts_scte35g_prepare s cr_sys latency).output.length ∧
          (upipe_ts_scte35g_prepare s cr_sys latency).scte35_cr_sys =
            cr_sys))) ∧
    ((s.flow_def = none ∨ s.scte35_null_section = none ∨
        s.scte35_interval = 0) →
      upipe_ts_scte35g_prepare s cr_sys latency = s) := by
  constructor
  · rintro ⟨hflow, hnull, hint⟩
    by_cases hlate : cr_sys < s.scte35_cr_sys + s.scte35_interval
    · left
      refine ⟨hlate, ?_⟩
      rw [upipe_ts_scte35g_prepare, if_pos]
      right; right; right; exact hlate
    · right
      have hcond : ¬ (s.flow_def.isNone = true ∨
          s.scte35_null_section.isNone = true ∨ s.scte35_interval = 0 ∨
          cr_sys < s.scte35_cr_sys + s.scte35_interval) := by
        simp only [not_or, Option.isNone_iff_eq_none]
        exact ⟨hflow, hnull, hint, by omega⟩
      refine ⟨by omega, ?_, ?_⟩
      · rw [upipe_ts_scte35g_prepare, if_neg hcond]
        cases h : (prepare_loop cr_sys s.scte35_sections).1 with
        | nil => simp [h]
        | cons a l => simp [h]
      · rw [upipe_ts_scte35g_prepare, if_neg hcond]
  · intro h
    rw [upipe_ts_scte35g_prepare, if_pos]
    rcases h with h | h | h
    · left; simpa [Option.isNone_iff_eq_none]
    · right; left; simpa [Option.isNone_iff_eq_none]
    · right; right; left; exact h

/-- Minimal qualifying state for the C2 witness. -/
def c2_witness_state : upipe_ts_scte35g :=
  { flow_def := some "void.scte35."
    urefs := []
    scte35_interval := 1
    scte35_cr_sys := 0
    scte35_null_section := some [7]
    scte35_sections := []
    output_flow_def := none
    flow_def_publications := 0
    output := [] }

/-- Witness for C2 at a concrete qualifying tick. -/
theorem upipe_ts_scte35g_prepare_interval_invariant_witness :
    (upipe_ts_scte35g_prepare c2_witness_state 5 0).scte35_cr_sys = 5 ∧
    c2_witness_state.output.length + 1 ≤
      (upipe_ts_scte35g_prepare c2_witness_state 5 0).output.length := by
  have h := (upipe_ts_scte35g_prepare_interval_invariant
    c2_witness_state 5 0).1 ⟨by decide, by decide, by decide⟩
  rcases h with ⟨h1, _⟩ | ⟨_, h2, h3⟩
  · exact absurd h1 (by decide)
  · exact ⟨h3, h2⟩

/-- A complete INSERT input event with a scheduled splice point. -/
def c2_cex_uref (id : Nat) : Uref :=
  { command_type := some SCTE35_INSERT_COMMAND
    pts_prog := some 9000000
    duration := none
    pts_sys := some 5000000
    event_id := some id
    cancel := false
    out_of_network := false
    auto_return := false
    unique_program_id := some 1
    start := true
    end_ := true
    descriptor := none }

/-- Reachable state with two pending scheduled messages: flow def set,
interval 50 ms, two complete INSERT events pushed. -/
def c2_cex_state : upipe_ts_scte35g :=
  upipe_ts_scte35g_input
    (upipe_ts_scte35g_input
      (upipe_ts_scte35g_set_scte35_interval
        (upipe_ts_scte35g_set_flow_def upipe_ts_scte35g_alloc
          (some "void.scte35.")).2
        1350000)
      (some (c2_cex_uref 1)))
    (some (c2_cex_uref 2))

/-- Counterexample to C2 as stated: a qualifying tick (all activity
preconditions hold and the interval has elapsed) on a queue of two
pending scheduled messages outputs TWO sections, not "exactly one". -/
theorem upipe_ts_scte35g_prepare_two_outputs :
    c2_cex_state.flow_def ≠ none ∧
    c2_cex_state.scte35_null_section ≠ none ∧
    c2_cex_state.scte35_interval ≠ 0 ∧
    c2_cex_state.scte35_cr_sys + c2_cex_state.scte35_interval ≤ 1350000 ∧
    c2_cex_state.output.length = 0 ∧
    (upipe_ts_scte35g_prepare c2_cex_state 1350000 0).output.length = 2 := by
  decide

/-! ### C6: push(empty) and the pending queue -/

/-- Pending queue holding one Message with a scheduled form, empty
reassembly accumulator. -/
def c6_bug_state : upipe_ts_scte35g :=
  { flow_def := some "void.scte35."
    urefs := []
    scte35_interval := 1350000
    scte35_cr_sys := 0
    scte35_null_section := some [7]
    scte35_sections := [{ ubuf := some [2], immediate := some [1],
                          cr_sys := 100 }]
    output_flow_def := none
    flow_def_publications := 1
    output := [] }

/-- C6 failing input, evaluated: pushing an explicit null input while a
Message with a scheduled form is pending leaves that Message — and the
whole generator state — unchanged, because the C loop walks
`scte35g->urefs` (the reassembly accumulator, here empty) instead of
`scte35g->scte35_sections`, reinterpreting uref nodes as messages.  The
claim (and the spec) require `scheduled_bytes` of every pending Message
to be cleared. -/
theorem upipe_ts_scte35g_input_null_keeps_scheduled :
    upipe_ts_scte35g_input c6_bug_state none = c6_bug_state ∧
    ((upipe_ts_scte35g_input c6_bug_state none).scte35_sections.map
      fun m => m.ubuf) = [some [2]] := by
  decide

/-! ### C7: SET_FLOW_DEF and null-section regeneration -/

/-- C7 (amended): a valid `SET_FLOW_DEF` builds the null section and
republishes the output flow definition only when no input flow definition
was stored before; a later valid set merely replaces the stored flow
definition.  A null or non-matching flow definition is rejected with the
state unchanged. -/
theorem upipe_ts_scte35g_set_flow_def_first_only (s : upipe_ts_scte35g)
    (fd : String) (hmatch : uref_flow_match_def fd "void.scte35." = true) :
    (s.flow_def = none →
      upipe_ts_scte35g_set_flow_def s (some fd) =
        (UbaseErr.none_, upipe_ts_scte35g_build_flow_def
          (upipe_ts_scte35g_build_null { s with flow_def := some fd }))) ∧
    (s.flow_def ≠ none →
      upipe_ts_scte35g_set_flow_def s (some fd) =
        (UbaseErr.none_, { s with flow_def := some fd })) ∧
    (∀ fd2, uref_flow_match_def fd2 "void.scte35." = false →
      upipe_ts_scte35g_set_flow_def s (some fd2) = (UbaseErr.invalid, s)) ∧
    upipe_ts_scte35g_set_flow_def s none = (UbaseErr.invalid, s) := by
  refine ⟨fun hnone => ?_, fun hsome => ?_, fun fd2 h2 => ?_, rfl⟩
  · simp [upipe_ts_scte35g_set_flow_def, hmatch, hnone,
      Option.isNone_iff_eq_none]
  · simp [upipe_ts_scte35g_set_flow_def, hmatch,
      Option.isNone_iff_eq_none, hsome]
  · simp [upipe_ts_scte35g_set_flow_def, h2]

/-- Witness for C7 at concrete inputs: the first valid set on a fresh
generator builds the null section; a second valid set does not. -/
theorem upipe_ts_scte35g_set_flow_def_first_only_witness :
    upipe_ts_scte35g_set_flow_def upipe_ts_scte35g_alloc
        (some "void.scte35.") =
      (UbaseErr.none_, upipe_ts_scte35g_build_flow_def
        (upipe_ts_scte35g_build_null
          { upipe_ts_scte35g_alloc with flow_def := some "void.scte35." })) ∧
    upipe_ts_scte35g_set_flow_def c6_bug_state (some "void.scte35.") =
      (UbaseErr.none_, { c6_bug_state with flow_def := some "void.scte35." })
    := by
  constructor
  · exact (upipe_ts_scte35g_set_flow_def_first_only upipe_ts_scte35g_alloc
      "void.scte35." (by decide)).1 rfl
  · exact ((upipe_ts_scte35g_set_flow_def_first_only c6_bug_state
      "void.scte35." (by decide)).2).1 (by decide)

/-- Flow def set and interval published once. -/
def c7_cex_state0 : upipe_ts_scte35g :=
  upipe_ts_scte35g_set_scte35_interval
    (upipe_ts_scte35g_set_flow_def upipe_ts_scte35g_alloc
      (some "void.scte35.")).2
    1350000

/-- A second, different, matching flow definition is set. -/
def c7_cex_state1 : upipe_ts_scte35g :=
  (upipe_ts_scte35g_set_flow_def c7_cex_state0
    (some "void.scte35.other.")).2

/-- Counterexample to C7 as stated: changing the input flow definition
through a second valid `SET_FLOW_DEF` replaces `flow_def` and does
nothing else — the null section is not rebuilt and the output flow
definition is not republished (`scte35_change` is only true when
`flow_def` was NULL). -/
theorem upipe_ts_scte35g_set_flow_def_second_set_no_rebuild :
    c7_cex_state0.flow_def = some "void.scte35." ∧
    uref_flow_match_def "void.scte35.other." "void.scte35." = true ∧
    c7_cex_state0.flow_def_publications = 1 ∧
    c7_cex_state1 =
      { c7_cex_state0 with flow_def := some "void.scte35.other." } ∧
    c7_cex_state1.flow_def_publications = 1 := by
  decide

/-! ### C8: flush with missing or unknown command type -/

/-- C8 (amended): on reassembly completion, a missing command type warns
and drains the whole accumulator; an UNKNOWN command type warns and
returns with the accumulator left intact (the `default:` case returns
before the drain loop).  In both cases no Message is enqueued and the
error is not fatal (the state is otherwise untouched). -/
theorem upipe_ts_scte35g_flush_bad_command (s : upipe_ts_scte35g)
    (u : Uref) (rest : List Uref) (hu : s.urefs = u :: rest) :
    (u.command_type = none →
      upipe_ts_scte35g_flush s = { s with urefs := [] }) ∧
    (∀ ct, u.command_type = some ct →
      ct ≠ SCTE35_NULL_COMMAND → ct ≠ SCTE35_INSERT_COMMAND →
      ct ≠ SCTE35_TIME_SIGNAL_COMMAND →
      upipe_ts_scte35g_flush s = s) := by
  constructor
  · intro hct
    simp only [upipe_ts_scte35g_flush, hu, hct]
  · intro ct hct h0 h5 h6
    simp only [upipe_ts_scte35g_flush, hu, hct]
    simp [h0, h5, h6]

/-- A fragment with the (unsupported) command type 7
(`bandwidth_reservation`). -/
def c8_cex_uref : Uref :=
  { command_type := some 7, pts_prog := none, duration := none,
    pts_sys := none, event_id := none, cancel := false,
    out_of_network := false, auto_return := false,
    unique_program_id := none, start := true, end_ := true,
    descriptor := none }

/-- Accumulator holding that single fragment. -/
def c8_cex_state : upipe_ts_scte35g :=
  { c6_bug_state with urefs := [c8_cex_uref] }

/-- Witness for C8: at `c8_cex_state`, the unknown-command branch applies
(state unchanged), and with the command type removed the accumulator is
drained. -/
theorem upipe_ts_scte35g_flush_bad_command_witness :
    upipe_ts_scte35g_flush c8_cex_state = c8_cex_state ∧
    upipe_ts_scte35g_flush
        { c8_cex_state with urefs :=
          [{ c8_cex_uref with command_type := none }] } =
      { c8_cex_state with urefs := [] } := by
  constructor
  · exact (upipe_ts_scte35g_flush_bad_command c8_cex_state c8_cex_uref []
      rfl).2 7 rfl (by decide) (by decide) (by decide)
  · exact (upipe_ts_scte35g_flush_bad_command
      { c8_cex_state with urefs :=
        [{ c8_cex_uref with command_type := none }] }
      { c8_cex_uref with command_type := none } [] rfl).1 rfl

/-- Counterexample to C8 as stated: after flushing an event with the
unknown command type 7 the accumulator still holds the fragment — it is
NOT drained, contrary to the claim's "drops (drains) the whole reassembly
accumulator so no stuck state remains". -/
theorem upipe_ts_scte35g_flush_unknown_leaves_accumulator :
    (c8_cex_state.urefs.map fun u => u.command_type) = [some 7] ∧
    upipe_ts_scte35g_flush c8_cex_state = c8_cex_state ∧
    (upipe_ts_scte35g_flush c8_cex_state).urefs ≠ [] := by
  decide

/-! ### C9: start=false, end=false on an empty accumulator -/

/-- C9: an input carrying a command type with `start = false` and
`end = false` arriving on an empty accumulator is not retained for
further descriptors: the generator immediately flushes the single
fragment as a complete event. -/
theorem upipe_ts_scte35g_input_single_fragment_flushes
    (s : upipe_ts_scte35g) (u : Uref) (hcmd : u.command_type ≠ none)
    (hstart : u.start = false) (hend : u.end_ = false)
    (hempty : s.urefs = []) :
    upipe_ts_scte35g_input s (some u) =
      upipe_ts_scte35g_flush { s with urefs := [u] } := by
  rcases hct : u.command_type with _ | ct
  · exact absurd hct hcmd
  · rw [upipe_ts_scte35g_input, hct]
    simp [hstart, hend, hempty]

/-- Witness for C9: a lone INSERT fragment with `start = end = false` is
synthesized at once (the message queue grows, the accumulator stays
empty). -/
theorem upipe_ts_scte35g_input_single_fragment_flushes_witness :
    upipe_ts_scte35g_input c6_bug_state
        (some { c2_cex_uref 9 with start := false, end_ := false }) =
      upipe_ts_scte35g_flush { c6_bug_state with
        urefs := [{ c2_cex_uref 9 with start := false, end_ := false }] }
    := by
  exact upipe_ts_scte35g_input_single_fragment_flushes c6_bug_state
    _ (by decide) (by decide) (by decide) (by decide)

/-! ### C10: flush of a NULL-command event -/

/-- C10: completing a reassembled event with command type NULL appends no
Message and leaves `scte35_cr_sys` alone; it rebuilds the cached null
section (a silent no-op when no input flow definition is set), and the
accumulator is drained. -/
theorem upipe_ts_scte35g_flush_null_command (s : upipe_ts_scte35g)
    (u : Uref) (rest : List Uref) (hu : s.urefs = u :: rest)
    (hct : u.command_type = some SCTE35_NULL_COMMAND) :
    upipe_ts_scte35g_flush s =
      { upipe_ts_scte35g_build_null s with urefs := [] } ∧
    (upipe_ts_scte35g_flush s).scte35_sections = s.scte35_sections ∧
    (upipe_ts_scte35g_flush s).scte35_cr_sys = s.scte35_cr_sys ∧
    (upipe_ts_scte35g_flush s).scte35_null_section =
      (if s.flow_def = none then s.scte35_null_section
       else some scte35g_null_section_bytes) ∧
    (s.flow_def = none → upipe_ts_scte35g_build_null s = s) := by
  have hflush : upipe_ts_scte35g_flush s =
      { upipe_ts_scte35g_build_null s with urefs := [] } := by
    simp only [upipe_ts_scte35g_flush, hu, hct]
    simp [SCTE35_NULL_COMMAND, SCTE35_INSERT_COMMAND,
      SCTE35_TIME_SIGNAL_COMMAND]
  refine ⟨hflush, ?_, ?_, ?_, fun hnone => ?_⟩
  · rw [hflush, upipe_ts_scte35g_build_null]
    split <;> rfl
  · rw [hflush, upipe_ts_scte35g_build_null]
    split <;> rfl
  · rw [hflush, upipe_ts_scte35g_build_null]
    by_cases hfd : s.flow_def = none <;>
      simp [hfd, Option.isNone_iff_eq_none]
  · rw [upipe_ts_scte35g_build_null]
    simp [hnone, Option.isNone_iff_eq_none]

/-- A complete NULL-command event fragment. -/
def c10_wit_uref : Uref :=
  { c2_cex_uref 3 with command_type := some SCTE35_NULL_COMMAND }

/-- Accumulator holding a NULL-command event, flow definition present. -/
def c10_wit_state : upipe_ts_scte35g :=
  { c6_bug_state with urefs := [c10_wit_uref] }

/-- Same, but without an input flow definition. -/
def c10_wit_state2 : upipe_ts_scte35g :=
  { c6_bug_state with flow_def := none, urefs := [c10_wit_uref] }

/-- Witness for C10 on concrete states, with and without a flow
definition. -/
theorem upipe_ts_scte35g_flush_null_command_witness :
    upipe_ts_scte35g_flush c10_wit_state =
      { upipe_ts_scte35g_build_null c10_wit_state with urefs := [] } ∧
    upipe_ts_scte35g_build_null c10_wit_state2 = c10_wit_state2 := by
  constructor
  · exact (upipe_ts_scte35g_flush_null_command c10_wit_state c10_wit_uref
      [] rfl rfl).1
  · exact (upipe_ts_scte35g_flush_null_command c10_wit_state2 c10_wit_uref
      [] rfl rfl).2.2.2.2 rfl

/-! ### Byte-level lemmas -/

theorem getByte_zeroBuf (i : Nat) : getByte zeroBuf i = 0 := rfl

theorem getByte_setByte_same (b : Buf) (i v : Nat) :
    getByte (setByte b i v) i = v % 256 := by
  simp [getByte, setByte]

theorem getByte_setByte_other (b : Buf) (i j v : Nat) (h : i ≠ j) :
    getByte (setByte b j v) i = getByte b i := by
  simp [getByte, setByte, h]

/-- Reading `time_specified_flag` back from a splice_time first byte that
was written as `254 + (pts bit 32)` always yields 1. -/
theorem time_specified_read_one (x : Nat) :
    (254 + x % 2) % 256 / 128 % 2 = 1 := by omega

/-! Section-side field decoders (the verification-side readers of the
on-wire layout; a byte list `l` is a trimmed section). -/

def sec_getByte (l : List Nat) (i : Nat) : Nat := l.getD i 0

/-- The 12-bit `section_length` field of a section byte list. -/
def sec_section_length (l : List Nat) : Nat :=
  sec_getByte l 1 % 16 * 256 + sec_getByte l 2

/-- The 12-bit `splice_command_length` field. -/
def sec_command_length (l : List Nat) : Nat :=
  sec_getByte l 11 % 16 * 256 + sec_getByte l 12

/-- The 16-bit `descriptor_loop_length` field (right after the command
body). -/
def sec_desclength (l : List Nat) : Nat :=
  sec_getByte l (SCTE35_HEADER_SIZE + sec_command_length l) * 256 +
    sec_getByte l (SCTE35_HEADER_SIZE + sec_command_length l + 1)

/-- The 33-bit `pts_time` (or `duration`) field starting at `off`. -/
def sec_33bit_field (l : List Nat) (off : Nat) : Nat :=
  sec_getByte l off % 2 * 2 ^ 32 + sec_getByte l (off + 1) * 2 ^ 24 +
    sec_getByte l (off + 2) * 2 ^ 16 + sec_getByte l (off + 3) * 2 ^ 8 +
    sec_getByte l (off + 4)

theorem bufTake_length (b : Buf) (n : Nat) : (bufTake b n).length = n := by
  simp [bufTake]

theorem bufTake_getD (b : Buf) (n i : Nat) (h : i < n) :
    sec_getByte (bufTake b n) i = getByte b i := by
  simp [bufTake, sec_getByte, getByte, List.getD, List.getElem?_map,
    List.getElem?_range h]

theorem bufTake_ne_nil (b : Buf) (n : Nat) (h : n ≠ 0) :
    bufTake b n ≠ [] := by
  intro hc
  have := bufTake_length b n
  rw [hc] at this
  simp at this
  omega

theorem getByte_writeBytes_lt (l : List Nat) (b : Buf) (off i : Nat)
    (h : i < off) :
    getByte (writeBytes b off l) i = getByte b i := by
  induction l generalizing b off with
  | nil => rfl
  | cons v rest ih =>
    rw [writeBytes, ih _ _ (by omega), getByte_setByte_other _ _ _ _
      (by omega)]

/-- The descriptor loop only writes at offsets `descl + acc` and above. -/
theorem time_signal_write_descs_getByte_lt (us : List Uref) (descl : Nat)
    (b : Buf) (acc i : Nat) (h : i < descl + acc) :
    getByte (time_signal_write_descs descl b acc us).1 i = getByte b i := by
  induction us generalizing b acc with
  | nil => rfl
  | cons u rest ih =>
    rw [time_signal_write_descs]
    cases upipe_ts_scte_export_desc u with
    | none => exact ih b acc h
    | some d =>
      rw [ih _ _ (by omega), getByte_writeBytes_lt _ _ _ _ (by omega)]

/-- The concatenation of the successfully exported descriptor runs. -/
def exported_descs : List Uref → List Nat
  | [] => []
  | u :: rest => (upipe_ts_scte_export_desc u).getD [] ++ exported_descs rest

/-- The loop's accumulated `descl_length` is the total byte count of the
exported descriptors. -/
theorem time_signal_write_descs_len (us : List Uref) (descl : Nat)
    (b : Buf) (acc : Nat) :
    (time_signal_write_descs descl b acc us).2 =
      acc + (exported_descs us).length := by
  induction us generalizing b acc with
  | nil => simp [time_signal_write_descs, exported_descs]
  | cons u rest ih =>
    rw [time_signal_write_descs, exported_descs]
    cases upipe_ts_scte_export_desc u with
    | none => simp [ih]
    | some d => simp [ih]; omega

/-- The common tail of the three builders: write `descriptor_loop_length`,
fix up `section_length` from the descriptor-loop end, stamp the CRC and
trim the buffer to the section. -/
def section_finalize_sec (b : Buf) (dl : Nat) : List Nat :=
  let b := scte35_set_desclength b dl
  let b := psi_set_length b
    (scte35_get_descl_off b + PSI_CRC_SIZE - PSI_HEADER_SIZE + dl)
  let b := psi_set_crc b
  bufTake b (psi_get_length b + PSI_HEADER_SIZE)

/-- Field correctness of the finalized section, for any command buffer
whose section-length high nibble is still the reserved `0x3` pattern and
whose announced command length, together with the descriptor loop, fits a
PSI section: the section is exactly header + command + loop-length field +
loop + CRC; `section_length` counts everything after byte 2;
`splice_command_length` and `descriptor_loop_length` read back exactly;
and every command byte before the loop-length field survives into the
final section. -/
theorem section_finalize (b : Buf) (dl : Nat)
    (hb1 : getByte b 1 / 16 = 3) (hb11 : getByte b 11 < 256)
    (hb12 : getByte b 12 < 256)
    (hbound : 17 + scte35_get_command_length b + dl ≤ PSI_MAX_SIZE) :
    (section_finalize_sec b dl).length =
      SCTE35_HEADER_SIZE + scte35_get_command_length b +
        SCTE35_HEADER2_SIZE + dl + PSI_CRC_SIZE ∧
    sec_section_length (section_finalize_sec b dl) =
      (section_finalize_sec b dl).length - PSI_HEADER_SIZE ∧
    sec_command_length (section_finalize_sec b dl) =
      scte35_get_command_length b ∧
    sec_desclength (section_finalize_sec b dl) = dl ∧
    (∀ i, i < SCTE35_HEADER_SIZE + scte35_get_command_length b →
      i ≠ 1 → i ≠ 2 →
      sec_getByte (section_finalize_sec b dl) i = getByte b i) := by
  have hms : PSI_MAX_SIZE = 1021 := rfl
  have hhs : SCTE35_HEADER_SIZE = 14 := rfl
  have hh2 : SCTE35_HEADER2_SIZE = 2 := rfl
  have hph : PSI_HEADER_SIZE = 3 := rfl
  have hpc : PSI_CRC_SIZE = 4 := rfl
  set cl := scte35_get_command_length b with hcl
  have hcl_lt : cl < 4096 := by
    rw [hcl, scte35_get_command_length]; omega
  -- stage 1: the descriptor-loop length field
  set b8 := scte35_set_desclength b dl with hB8
  have h8 : ∀ i, i ≠ 14 + cl → i ≠ 15 + cl → getByte b8 i = getByte b i := by
    intro i h1 h2
    rw [hB8, scte35_set_desclength]
    simp only [hhs]
    rw [getByte_setByte_other _ _ _ _ (by rw [← hcl]; omega),
      getByte_setByte_other _ _ _ _ (by rw [← hcl]; omega)]
  have h8a : getByte b8 (14 + cl) = dl / 256 % 256 := by
    rw [hB8, scte35_set_desclength]
    simp only [hhs]
    rw [getByte_setByte_other _ _ _ _ (by rw [← hcl]; omega),
      getByte_setByte_same]
    omega
  have h8b : getByte b8 (15 + cl) = dl % 256 := by
    rw [hB8, scte35_set_desclength]
    simp only [hhs]
    have hix : (15 : Nat) + cl = 14 + scte35_get_command_length b + 1 := by
      rw [hcl]; omega
    rw [hix, getByte_setByte_same]
    omega
  have hcl8 : scte35_get_command_length b8 = cl := by
    rw [scte35_get_command_length, h8 11 (by omega) (by omega),
      h8 12 (by omega) (by omega), ← scte35_get_command_length, hcl]
  -- stage 2: section_length fix-up
  set L := scte35_get_descl_off b8 + PSI_CRC_SIZE - PSI_HEADER_SIZE + dl
    with hLdef
  have hL : L = 17 + cl + dl := by
    rw [hLdef, scte35_get_descl_off, hcl8]; omega
  set b9 := psi_set_length b8 L with hB9
  have h9 : ∀ i, i ≠ 1 → i ≠ 2 → getByte b9 i = getByte b8 i := by
    intro i h1 h2
    rw [hB9, psi_set_length, getByte_setByte_other _ _ _ _ h2,
      getByte_setByte_other _ _ _ _ h1]
  have h9a : getByte b9 1 = 48 + L / 256 % 16 := by
    rw [hB9, psi_set_length, getByte_setByte_other _ _ _ _ (by omega),
      getByte_setByte_same, h8 1 (by omega) (by omega)]
    omega
  have h9b : getByte b9 2 = L % 256 := by
    rw [hB9, psi_set_length, getByte_setByte_same]
    omega
  have hlen9 : psi_get_length b9 = L := by
    rw [psi_get_length, h9a, h9b]
    omega
  -- stage 3: CRC stamping
  set b10 := psi_set_crc b9 with hB10
  have h10 : ∀ i, i < 16 + cl + dl → getByte b10 i = getByte b9 i := by
    intro i hi
    rw [hB10, psi_set_crc]
    simp only [hlen9, hL, hph, hpc]
    rw [getByte_writeBytes_lt _ _ _ _ (by omega)]
  have hlen10 : psi_get_length b10 = L := by
    rw [psi_get_length, h10 1 (by omega), h10 2 (by omega),
      ← psi_get_length, hlen9]
  -- assemble
  have hsec : section_finalize_sec b dl = bufTake b10 (L + 3) := by
    simp only [section_finalize_sec]
    simp only [← hB8]
    simp only [← hLdef]
    simp only [← hB9, ← hB10]
    rw [hlen10, hph]
  have hlen : (section_finalize_sec b dl).length = L + 3 := by
    rw [hsec, bufTake_length]
  have hread : ∀ i, i < L + 3 →
      sec_getByte (section_finalize_sec b dl) i = getByte b10 i := by
    intro i hi
    rw [hsec, bufTake_getD _ _ _ hi]
  have hscl : sec_command_length (section_finalize_sec b dl) = cl := by
    rw [sec_command_length, hread 11 (by omega), hread 12 (by omega),
      h10 11 (by omega), h10 12 (by omega), h9 11 (by omega) (by omega),
      h9 12 (by omega) (by omega), ← scte35_get_command_length, hcl8]
  refine ⟨by rw [hlen]; omega, ?_, hscl, ?_, ?_⟩
  · rw [sec_section_length, hlen, hread 1 (by omega), hread 2 (by omega),
      h10 1 (by omega), h10 2 (by omega), h9a, h9b, hph]
    omega
  · rw [sec_desclength, hscl, hhs, hread (14 + cl) (by omega),
      hread (14 + cl + 1) (by omega), h10 (14 + cl) (by omega),
      h10 (14 + cl + 1) (by omega), h9 (14 + cl) (by omega) (by omega),
      h9 (14 + cl + 1) (by omega) (by omega), h8a,
      show 14 + cl + 1 = 15 + cl by omega, h8b]
    omega
  · intro i hi h1 h2
    rw [hhs] at hi
    rw [hread i (by omega), h10 i (by omega), h9 i h1 h2,
      h8 i (by omega) (by omega)]

/-- The exact byte count of the splice_insert command body, as the code
computes it before writing (`insert_size` plus the insert header). -/
def insert_command_body_size (cancel : Bool)
    (pts_prog duration : Option Nat) : Nat :=
  SCTE35_INSERT_HEADER_SIZE +
    (if cancel then 0 else
      SCTE35_INSERT_HEADER2_SIZE + SCTE35_INSERT_FOOTER_SIZE +
      (if pts_prog.isSome then
        SCTE35_SPLICE_TIME_HEADER_SIZE + SCTE35_SPLICE_TIME_TIME_SIZE
       else 0) +
      (if duration.isSome then SCTE35_BREAK_DURATION_HEADER_SIZE else 0))

/-- Field correctness of every splice_insert section: the three length
fields are exact, and there is no descriptor loop. -/
theorem scte35g_insert_section_fields (cancel out_of_network auto_return :
    Bool) (event_id program_id : Nat) (pts_prog duration : Option Nat) :
    (scte35g_insert_section cancel event_id out_of_network pts_prog
        duration auto_return program_id).length =
      PSI_HEADER_SIZE + sec_section_length (scte35g_insert_section cancel
        event_id out_of_network pts_prog duration auto_return program_id) ∧
    sec_command_length (scte35g_insert_section cancel event_id
        out_of_network pts_prog duration auto_return program_id) =
      insert_command_body_size cancel pts_prog duration ∧
    (scte35g_insert_section cancel event_id out_of_network pts_prog
        duration auto_return program_id).length =
      SCTE35_HEADER_SIZE + sec_command_length (scte35g_insert_section
        cancel event_id out_of_network pts_prog duration auto_return
        program_id) + SCTE35_HEADER2_SIZE +
      sec_desclength (scte35g_insert_section cancel event_id
        out_of_network pts_prog duration auto_return program_id) +
      PSI_CRC_SIZE ∧
    sec_desclength (scte35g_insert_section cancel event_id out_of_network
        pts_prog duration auto_return program_id) = 0 := by
  rcases cancel <;> rcases pts_prog with _ | p <;>
    rcases duration with _ | d <;> rcases out_of_network <;>
    rcases auto_return <;>
  · simp +decide only [scte35g_insert_section, scte35_init, psi_set_length,
      scte35_set_pts_adjustment, scte35_insert_init, scte35_set_command_type,
      scte35_set_command_length, scte35_insert_set_cancel,
      scte35_insert_set_event_id, scte35_insert_set_out_of_network,
      scte35_insert_set_program_splice, scte35_insert_set_duration,
      scte35_insert_set_splice_immediate, scte35_splice_time_init,
      scte35_splice_time_set_time_specified, scte35_splice_time_set_pts_time,
      scte35_break_duration_init, scte35_break_duration_set_auto_return,
      scte35_break_duration_set_duration,
      scte35_insert_set_unique_program_id, scte35_insert_set_avail_num,
      scte35_insert_set_avails_expected, scte35_insert_footer_off,
      scte35_insert_break_duration_off, scte35_insert_splice_time_off,
      scte35_insert_has_splice_immediate, scte35_insert_has_duration,
      scte35_splice_time_size, scte35_get_descl_off, scte35_set_desclength,
      scte35_get_command_length, psi_get_length, psi_set_crc, setBitB,
      writeBytes, getByte_setByte_same, getByte_setByte_other,
      Option.isSome_some, Option.isNone_some, Option.isSome_none,
      Option.isNone_none, SCTE35_HEADER_SIZE, SCTE35_HEADER2_SIZE,
      SCTE35_INSERT_HEADER_SIZE, SCTE35_INSERT_HEADER2_SIZE,
      SCTE35_INSERT_FOOTER_SIZE, SCTE35_SPLICE_TIME_HEADER_SIZE,
      SCTE35_SPLICE_TIME_TIME_SIZE, SCTE35_BREAK_DURATION_HEADER_SIZE,
      DESC_HEADER_SIZE, PSI_HEADER_SIZE, PSI_CRC_SIZE, PSI_MAX_SIZE,
      SCTE35_NULL_COMMAND, SCTE35_INSERT_COMMAND,
      SCTE35_TIME_SIGNAL_COMMAND, reduceIte, Nat.reduceAdd, Nat.reduceSub,
      Nat.reduceMul, Nat.reduceDiv, Nat.reduceMod, Nat.reduceEqDiff,
      Nat.reduceLTLE, Nat.reduceLeDiff, Nat.reducePow, getByte_zeroBuf,
      time_specified_read_one, CLOCK_SCALE, POW2_33, UCLOCK_FREQ,
      bufTake_getD, bufTake_length, sec_section_length, sec_command_length,
      sec_desclength, insert_command_body_size, and_true, true_and]

/-- The time_signal command buffer right before the descriptor loop
(`pts_orig` is the already wrapped 90 kHz time, computed once before the
serialization loop of `upipe_ts_scte35g_time_signal`). -/
def ts_prebuf (pts_orig : Option Nat) : Buf :=
  let b := scte35_init zeroBuf
  let b := psi_set_length b PSI_MAX_SIZE
  let b := scte35_set_pts_adjustment b 0
  let i_size := if pts_orig.isSome then SCTE35_SPLICE_TIME_TIME_SIZE else 0
  let b := scte35_time_signal_init b i_size
  let t := SCTE35_HEADER_SIZE
  let b := scte35_splice_time_init b t
  let b := scte35_splice_time_set_time_specified b t pts_orig.isSome
  match pts_orig with
  | none => b
  | some v => scte35_splice_time_set_pts_time b t v

/-- The time_signal builder is the descriptor loop over `ts_prebuf`
followed by the common finalization. -/
theorem time_signal_section_decomp (pts : Option Nat) (descs : List Uref) :
    scte35g_time_signal_section pts descs =
      section_finalize_sec
        (time_signal_write_descs
          (scte35_get_descl_off
            (ts_prebuf (pts.map fun p => p / CLOCK_SCALE % POW2_33)))
          (ts_prebuf (pts.map fun p => p / CLOCK_SCALE % POW2_33)) 0
          descs).1
        (time_signal_write_descs
          (scte35_get_descl_off
            (ts_prebuf (pts.map fun p => p / CLOCK_SCALE % POW2_33)))
          (ts_prebuf (pts.map fun p => p / CLOCK_SCALE % POW2_33)) 0
          descs).2 := by
  cases pts <;> rfl

/-- Header bytes of the pre-loop time_signal buffer. -/
theorem ts_prebuf_bytes (po : Option Nat) :
    getByte (ts_prebuf po) 1 = 51 ∧ getByte (ts_prebuf po) 11 = 240 ∧
    getByte (ts_prebuf po) 12 = (1 + if po.isSome then 4 else 0) ∧
    scte35_get_command_length (ts_prebuf po) =
      (1 + if po.isSome then 4 else 0) := by
  rcases po with _ | v <;>
  · simp +decide only [ts_prebuf, scte35_init, psi_set_length,
      scte35_set_pts_adjustment, scte35_time_signal_init,
      scte35_set_command_type, scte35_set_command_length,
      scte35_splice_time_init, scte35_splice_time_set_time_specified,
      scte35_splice_time_set_pts_time, scte35_get_descl_off,
      scte35_get_command_length, psi_get_length, setBitB,
      getByte_setByte_same, getByte_setByte_other, Option.isSome_some,
      Option.isNone_some, Option.isSome_none, Option.isNone_none,
      SCTE35_HEADER_SIZE, SCTE35_HEADER2_SIZE,
      SCTE35_SPLICE_TIME_HEADER_SIZE, SCTE35_SPLICE_TIME_TIME_SIZE,
      PSI_HEADER_SIZE, PSI_CRC_SIZE, PSI_MAX_SIZE, SCTE35_NULL_COMMAND,
      SCTE35_INSERT_COMMAND, SCTE35_TIME_SIGNAL_COMMAND, reduceIte,
      Nat.reduceAdd, Nat.reduceSub, Nat.reduceMul, Nat.reduceDiv,
      Nat.reduceMod, Nat.reduceEqDiff, Nat.reduceLTLE, Nat.reduceLeDiff,
      Nat.reducePow, getByte_zeroBuf, time_specified_read_one, CLOCK_SCALE,
      POW2_33, UCLOCK_FREQ, and_true, true_and]

/-- The `splice_time()` bytes of the pre-loop time_signal buffer when the
time is specified. -/
theorem ts_prebuf_pts_bytes (v : Nat) :
    getByte (ts_prebuf (some v)) 14 = (254 + v / 2 ^ 32 % 2) % 256 ∧
    getByte (ts_prebuf (some v)) 15 = v / 2 ^ 24 % 256 ∧
    getByte (ts_prebuf (some v)) 16 = v / 2 ^ 16 % 256 ∧
    getByte (ts_prebuf (some v)) 17 = v / 2 ^ 8 % 256 ∧
    getByte (ts_prebuf (some v)) 18 = v % 256 := by
  simp +decide only [ts_prebuf, scte35_init, psi_set_length,
      scte35_set_pts_adjustment, scte35_time_signal_init,
      scte35_set_command_type, scte35_set_command_length,
      scte35_splice_time_init, scte35_splice_time_set_time_specified,
      scte35_splice_time_set_pts_time, scte35_get_descl_off,
      scte35_get_command_length, psi_get_length, setBitB,
      getByte_setByte_same, getByte_setByte_other, Option.isSome_some,
      Option.isNone_some, Option.isSome_none, Option.isNone_none,
      SCTE35_HEADER_SIZE, SCTE35_HEADER2_SIZE,
      SCTE35_SPLICE_TIME_HEADER_SIZE, SCTE35_SPLICE_TIME_TIME_SIZE,
      PSI_HEADER_SIZE, PSI_CRC_SIZE, PSI_MAX_SIZE, SCTE35_NULL_COMMAND,
      SCTE35_INSERT_COMMAND, SCTE35_TIME_SIGNAL_COMMAND, reduceIte,
      Nat.reduceAdd, Nat.reduceSub, Nat.reduceMul, Nat.reduceDiv,
      Nat.reduceMod, Nat.reduceEqDiff, Nat.reduceLTLE, Nat.reduceLeDiff,
      Nat.reducePow, getByte_zeroBuf, time_specified_read_one, CLOCK_SCALE,
      POW2_33, UCLOCK_FREQ, and_true, true_and]
  omega

/-- Field correctness of every time_signal section (under the PSI size
limit the C buffer enforces): the three length fields are exact, the
descriptor loop length is the byte count of the exported descriptors, and
the command body survives into the final section. -/
theorem scte35g_time_signal_section_fields (pts : Option Nat)
    (descs : List Uref)
    (hbound : 18 + (if pts.isSome then 4 else 0) +
      (exported_descs descs).length ≤ PSI_MAX_SIZE) :
    (scte35g_time_signal_section pts descs).length =
      PSI_HEADER_SIZE +
        sec_section_length (scte35g_time_signal_section pts descs) ∧
    sec_command_length (scte35g_time_signal_section pts descs) =
      SCTE35_SPLICE_TIME_HEADER_SIZE +
        (if pts.isSome then SCTE35_SPLICE_TIME_TIME_SIZE else 0) ∧
    (scte35g_time_signal_section pts descs).length =
      SCTE35_HEADER_SIZE +
        sec_command_length (scte35g_time_signal_section pts descs) +
        SCTE35_HEADER2_SIZE +
        sec_desclength (scte35g_time_signal_section pts descs) +
        PSI_CRC_SIZE ∧
    sec_desclength (scte35g_time_signal_section pts descs) =
      (exported_descs descs).length ∧
    (∀ i, i < SCTE35_HEADER_SIZE +
        sec_command_length (scte35g_time_signal_section pts descs) →
      i ≠ 1 → i ≠ 2 →
      sec_getByte (scte35g_time_signal_section pts descs) i =
        getByte (ts_prebuf (pts.map fun p => p / CLOCK_SCALE % POW2_33))
          i) := by
  have hms : PSI_MAX_SIZE = 1021 := rfl
  have hhs : SCTE35_HEADER_SIZE = 14 := rfl
  have hsth : SCTE35_SPLICE_TIME_HEADER_SIZE = 1 := rfl
  have hstt : SCTE35_SPLICE_TIME_TIME_SIZE = 4 := rfl
  rw [time_signal_section_decomp]
  set po := pts.map fun p => p / CLOCK_SCALE % POW2_33 with hpo
  have hposome : po.isSome = pts.isSome := by cases pts <;> simp [hpo]
  set B := ts_prebuf po with hB
  obtain ⟨h1, h11, h12, hclB⟩ := ts_prebuf_bytes po
  set q := (if po.isSome then 4 else 0) with hq
  have hq4 : q ≤ 4 := by rw [hq]; split <;> omega
  have hdescl : scte35_get_descl_off B = 17 + q := by
    rw [scte35_get_descl_off, hclB, hhs]
    have : SCTE35_HEADER2_SIZE = 2 := rfl
    omega
  set R := time_signal_write_descs (scte35_get_descl_off B) B 0 descs
    with hR
  have hpre : ∀ i, i < 17 + q → getByte R.1 i = getByte B i := by
    intro i hi
    rw [hR]
    exact time_signal_write_descs_getByte_lt descs _ B 0 i
      (by rw [hdescl]; omega)
  have hR1 : getByte R.1 1 = 51 := by rw [hpre 1 (by omega), h1]
  have hR11 : getByte R.1 11 = 240 := by rw [hpre 11 (by omega), h11]
  have hR12 : getByte R.1 12 = 1 + q := by rw [hpre 12 (by omega), h12]
  have hclR : scte35_get_command_length R.1 = 1 + q := by
    rw [scte35_get_command_length, hR11, hR12]; omega
  have hdl : R.2 = (exported_descs descs).length := by
    rw [hR, time_signal_write_descs_len]; omega
  obtain ⟨f1, f2, f3, f4, f5⟩ := section_finalize R.1 R.2
    (by rw [hR1]) (by rw [hR11]; omega) (by rw [hR12]; omega)
    (by rw [hclR, hdl]; rw [hms] at hbound ⊢; rw [← hposome, ← hq] at hbound
        omega)
  have hqs : SCTE35_SPLICE_TIME_HEADER_SIZE +
      (if pts.isSome then SCTE35_SPLICE_TIME_TIME_SIZE else 0) = 1 + q := by
    rw [hq, hposome, hsth, hstt]
  refine ⟨?_, ?_, ?_, ?_, ?_⟩
  · rw [f2, f1]
    have hh2 : SCTE35_HEADER2_SIZE = 2 := rfl
    have hph : PSI_HEADER_SIZE = 3 := rfl
    have hpc : PSI_CRC_SIZE = 4 := rfl
    omega
  · rw [f3, hclR, hqs]
  · rw [f1, f3, f4, hdl]
  · rw [f4, hdl]
  · intro i hi hi1 hi2
    rw [f3, hclR] at hi
    rw [f5 i (by rw [hclR]; omega) hi1 hi2, hpre i (by rw [hhs] at hi; omega)]

/-! ### C3: exact length fields -/

/-- C3: for every synthesized section (splice_insert with any field
combination, splice_null, time_signal with any descriptor set that fits
the PSI section), the 12-bit `section_length` equals the byte count from
byte 3 through the end of the CRC (i.e. section bytes minus the 3-byte
PSI header), `splice_command_length` equals the command-body byte count
(the header/flags/splice_time/break_duration/footer bytes actually
written), `descriptor_loop_length` equals the byte count of the
concatenated exported descriptors, and the four parts tile the section
exactly. -/
theorem scte35g_sections_length_fields
    (cancel out_of_network auto_return : Bool)
    (event_id program_id : Nat) (pts_prog duration : Option Nat)
    (ts_pts : Option Nat) (descs : List Uref)
    (hbound : 18 + (if ts_pts.isSome then 4 else 0) +
      (exported_descs descs).length ≤ PSI_MAX_SIZE) :
    ((scte35g_insert_section cancel event_id out_of_network pts_prog
        duration auto_return program_id).length =
      PSI_HEADER_SIZE + sec_section_length (scte35g_insert_section cancel
        event_id out_of_network pts_prog duration auto_return program_id) ∧
      sec_command_length (scte35g_insert_section cancel event_id
        out_of_network pts_prog duration auto_return program_id) =
        insert_command_body_size cancel pts_prog duration ∧
      (scte35g_insert_section cancel event_id out_of_network pts_prog
        duration auto_return program_id).length =
        SCTE35_HEADER_SIZE + sec_command_length (scte35g_insert_section
          cancel event_id out_of_network pts_prog duration auto_return
          program_id) + SCTE35_HEADER2_SIZE +
        sec_desclength (scte35g_insert_section cancel event_id
          out_of_network pts_prog duration auto_return program_id) +
        PSI_CRC_SIZE ∧
      sec_desclength (scte35g_insert_section cancel event_id
        out_of_network pts_prog duration auto_return program_id) = 0) ∧
    (scte35g_null_section_bytes.length =
      PSI_HEADER_SIZE + sec_section_length scte35g_null_section_bytes ∧
      sec_command_length scte35g_null_section_bytes = 0 ∧
      scte35g_null_section_bytes.length =
        SCTE35_HEADER_SIZE + sec_command_length scte35g_null_section_bytes +
        SCTE35_HEADER2_SIZE + sec_desclength scte35g_null_section_bytes +
        PSI_CRC_SIZE ∧
      sec_desclength scte35g_null_section_bytes = 0) ∧
    ((scte35g_time_signal_section ts_pts descs).length =
      PSI_HEADER_SIZE +
        sec_section_length (scte35g_time_signal_section ts_pts descs) ∧
      sec_command_length (scte35g_time_signal_section ts_pts descs) =
        SCTE35_SPLICE_TIME_HEADER_SIZE +
        (if ts_pts.isSome then SCTE35_SPLICE_TIME_TIME_SIZE else 0) ∧
      (scte35g_time_signal_section ts_pts descs).length =
        SCTE35_HEADER_SIZE +
        sec_command_length (scte35g_time_signal_section ts_pts descs) +
        SCTE35_HEADER2_SIZE +
        sec_desclength (scte35g_time_signal_section ts_pts descs) +
        PSI_CRC_SIZE ∧
      sec_desclength (scte35g_time_signal_section ts_pts descs) =
        (exported_descs descs).length) := by
  refine ⟨?_, by decide, ?_⟩
  · exact scte35g_insert_section_fields cancel out_of_network auto_return
      event_id program_id pts_prog duration
  · obtain ⟨t1, t2, t3, t4, _⟩ :=
      scte35g_time_signal_section_fields ts_pts descs hbound
    exact ⟨t1, t2, t3, t4⟩

/-- A descriptor-bearing continuation uref: a 12-byte descriptor run
(tag 1, length 10). -/
def c3_wit_desc_uref : Uref :=
  { command_type := none, pts_prog := none, duration := none,
    pts_sys := none, event_id := none, cancel := false,
    out_of_network := false, auto_return := false,
    unique_program_id := none, start := false, end_ := true,
    descriptor := some [1, 10, 1, 2, 3, 4, 5, 6, 7, 8, 9, 10] }

/-- Witness for C3 at concrete inputs: a scheduled splice_insert with
duration (command body 20 bytes, 40-byte section), and a time_signal with
one 12-byte descriptor (command body 5 bytes, descriptor loop 12 bytes,
37-byte section). -/
theorem scte35g_sections_length_fields_witness :
    (scte35g_insert_section false 0x12345678 true (some 9000000)
      (some 2700000) true 0x42).length = 40 ∧
    sec_command_length (scte35g_insert_section false 0x12345678 true
      (some 9000000) (some 2700000) true 0x42) = 20 ∧
    (scte35g_time_signal_section (some 90000000)
      [c3_wit_desc_uref]).length = 37 ∧
    sec_desclength (scte35g_time_signal_section (some 90000000)
      [c3_wit_desc_uref]) = 12 ∧
    sec_section_length (scte35g_time_signal_section (some 90000000)
      [c3_wit_desc_uref]) = 34 := by
  obtain ⟨⟨i1, i2, i3, i4⟩, _, ⟨t1, t2, t3, t4⟩⟩ :=
    scte35g_sections_length_fields false true true 0x12345678 0x42
      (some 9000000) (some 2700000) (some 90000000) [c3_wit_desc_uref]
      (by decide)
  refine ⟨?_, ?_, ?_, ?_, ?_⟩
  · rw [i3, i2, i4]; decide
  · rw [i2]; decide
  · rw [t3, t2, t4]; decide
  · rw [t4]; decide
  · have hlen : (scte35g_time_signal_section (some 90000000)
        [c3_wit_desc_uref]).length = 37 := by
      rw [t3, t2, t4]; decide
    have hph : PSI_HEADER_SIZE = 3 := rfl
    rw [hph] at t1
    omega

/-! ### C4: 33-bit modular wrap of pts_time and break duration -/

/-- C4: for every event with `pts_prog` present — of any magnitude — the
serialized 33-bit `pts_time` of the scheduled form is
`(pts_prog / CLOCK_SCALE) % 2^33` with `CLOCK_SCALE = 300` (integer
division before the modular wrap), both for splice_insert (splice_time at
offset 20) and for time_signal (splice_time at offset 14); the same law
holds for the 33-bit duration of `break_duration()` (offset 25 of a
scheduled insert with a duration). -/
theorem scte35g_pts_time_modular_wrap (event_id program_id p dur : Nat)
    (out_of_network auto_return : Bool) (descs : List Uref)
    (hbound : 22 + (exported_descs descs).length ≤ PSI_MAX_SIZE) :
    sec_33bit_field (scte35g_insert_section false event_id out_of_network
      (some p) (some dur) auto_return program_id) 20 =
      p / CLOCK_SCALE % POW2_33 ∧
    sec_33bit_field (scte35g_insert_section false event_id out_of_network
      (some p) none auto_return program_id) 20 =
      p / CLOCK_SCALE % POW2_33 ∧
    sec_33bit_field (scte35g_insert_section false event_id out_of_network
      (some p) (some dur) auto_return program_id) 25 =
      dur / CLOCK_SCALE % POW2_33 ∧
    sec_33bit_field (scte35g_time_signal_section (some p) descs) 14 =
      p / CLOCK_SCALE % POW2_33 := by
  have hts : sec_33bit_field (scte35g_time_signal_section (some p) descs)
      14 = p / CLOCK_SCALE % POW2_33 := by
    obtain ⟨_, t2, _, _, t5⟩ := scte35g_time_signal_section_fields (some p)
      descs (by
        have hms : PSI_MAX_SIZE = 1021 := rfl
        rw [hms] at hbound ⊢
        simp only [Option.isSome_some, reduceIte]
        omega)
    have hcmd : SCTE35_HEADER_SIZE +
        sec_command_length (scte35g_time_signal_section (some p) descs) =
        19 := by
      rw [t2]
      norm_num [SCTE35_HEADER_SIZE, SCTE35_SPLICE_TIME_HEADER_SIZE,
        SCTE35_SPLICE_TIME_TIME_SIZE, PSI_HEADER_SIZE]
    rw [sec_33bit_field,
      t5 14 (by omega) (by omega) (by omega),
      t5 15 (by omega) (by omega) (by omega),
      t5 16 (by omega) (by omega) (by omega),
      t5 17 (by omega) (by omega) (by omega),
      t5 18 (by omega) (by omega) (by omega)]
    simp only [Option.map]
    obtain ⟨b14, b15, b16, b17, b18⟩ :=
      ts_prebuf_pts_bytes (p / CLOCK_SCALE % POW2_33)
    rw [b14, b15, b16, b17, b18]
    have hcs : CLOCK_SCALE = 300 := rfl
    have hp33 : POW2_33 = 8589934592 := rfl
    rw [hcs, hp33]
    omega
  refine ⟨?_, ?_, ?_, hts⟩ <;> rcases out_of_network <;>
    rcases auto_return <;>
  · simp +decide only [scte35g_insert_section, scte35_init, psi_set_length,
      scte35_set_pts_adjustment, scte35_insert_init, scte35_set_command_type,
      scte35_set_command_length, scte35_insert_set_cancel,
      scte35_insert_set_event_id, scte35_insert_set_out_of_network,
      scte35_insert_set_program_splice, scte35_insert_set_duration,
      scte35_insert_set_splice_immediate, scte35_splice_time_init,
      scte35_splice_time_set_time_specified, scte35_splice_time_set_pts_time,
      scte35_break_duration_init, scte35_break_duration_set_auto_return,
      scte35_break_duration_set_duration,
      scte35_insert_set_unique_program_id, scte35_insert_set_avail_num,
      scte35_insert_set_avails_expected, scte35_insert_footer_off,
      scte35_insert_break_duration_off, scte35_insert_splice_time_off,
      scte35_insert_has_splice_immediate, scte35_insert_has_duration,
      scte35_splice_time_size, scte35_get_descl_off, scte35_set_desclength,
      scte35_get_command_length, psi_get_length, psi_set_crc, setBitB,
      writeBytes, getByte_setByte_same, getByte_setByte_other,
      Option.isSome_some, Option.isNone_some, Option.isSome_none,
      Option.isNone_none, SCTE35_HEADER_SIZE, SCTE35_HEADER2_SIZE,
      SCTE35_INSERT_HEADER_SIZE, SCTE35_INSERT_HEADER2_SIZE,
      SCTE35_INSERT_FOOTER_SIZE, SCTE35_SPLICE_TIME_HEADER_SIZE,
      SCTE35_SPLICE_TIME_TIME_SIZE, SCTE35_BREAK_DURATION_HEADER_SIZE,
      DESC_HEADER_SIZE, PSI_HEADER_SIZE, PSI_CRC_SIZE, PSI_MAX_SIZE,
      SCTE35_NULL_COMMAND, SCTE35_INSERT_COMMAND,
      SCTE35_TIME_SIGNAL_COMMAND, reduceIte, Nat.reduceAdd, Nat.reduceSub,
      Nat.reduceMul, Nat.reduceDiv, Nat.reduceMod, Nat.reduceEqDiff,
      Nat.reduceLTLE, Nat.reduceLeDiff, Nat.reducePow, getByte_zeroBuf,
      time_specified_read_one, CLOCK_SCALE, POW2_33, UCLOCK_FREQ,
      bufTake_getD, bufTake_length, sec_33bit_field, and_true, true_and]
    omega

/-- Witness for C4 at a concrete input of large (64-bit) magnitude. -/
theorem scte35g_pts_time_modular_wrap_witness :
    sec_33bit_field (scte35g_insert_section false 1 false
      (some (2 ^ 63 + 12345)) (some 2700000) false 2) 20 =
      (2 ^ 63 + 12345) / CLOCK_SCALE % POW2_33 ∧
    sec_33bit_field (scte35g_time_signal_section
      (some (2 ^ 63 + 12345)) []) 14 =
      (2 ^ 63 + 12345) / CLOCK_SCALE % POW2_33 := by
  obtain ⟨h1, _, _, h4⟩ := scte35g_pts_time_modular_wrap 1 2
    (2 ^ 63 + 12345) 2700000 false false [] (by decide)
  exact ⟨h1, h4⟩

/-! ### C5: the two serialized forms of a synthesized event -/

theorem scte35g_insert_section_ne_nil (cancel out_of_network auto_return :
    Bool) (event_id program_id : Nat) (pts_prog duration : Option Nat) :
    scte35g_insert_section cancel event_id out_of_network pts_prog
      duration auto_return program_id ≠ [] := by
  simp only [scte35g_insert_section]
  apply bufTake_ne_nil
  have h : PSI_HEADER_SIZE = 3 := rfl
  omega

theorem scte35g_time_signal_section_ne_nil (pts : Option Nat)
    (descs : List Uref) :
    scte35g_time_signal_section pts descs ≠ [] := by
  simp only [scte35g_time_signal_section]
  apply bufTake_ne_nil
  have h : PSI_HEADER_SIZE = 3 := rfl
  omega

/-- C5 (amended): synthesizing an INSERT or TIME_SIGNAL event appends
exactly one Message to the pending queue, carrying a (non-empty) byte
block in the `immediate` slot in every case and additionally a scheduled
block iff `pts_prog` is present, and resets `scte35_cr_sys` to 0 so the
next tick emits without waiting.  For INSERT the immediate slot holds the
re-serialization with `pts_prog` forced absent (a true no-PTS section);
for TIME_SIGNAL the serialization only depends on the pre-computed
`pts_orig`, so the immediate slot holds the same bytes as the scheduled
form — it still carries the PTS when one is present. -/
theorem upipe_ts_scte35g_synthesis_message (s : upipe_ts_scte35g)
    (u : Uref) (rest : List Uref) (hu : s.urefs = u :: rest) :
    (upipe_ts_scte35g_input_insert s = { s with
      urefs := rest
      scte35_sections := s.scte35_sections ++
        [{ ubuf := u.pts_prog.map fun _ =>
             scte35g_insert_section u.cancel (u.event_id.getD 0)
               u.out_of_network u.pts_prog u.duration u.auto_return
               (u.unique_program_id.getD 0)
           immediate := some (scte35g_insert_section u.cancel
             (u.event_id.getD 0) u.out_of_network none u.duration
             u.auto_return (u.unique_program_id.getD 0))
           cr_sys := u.pts_sys.getD 0 }]
      scte35_cr_sys := 0 }) ∧
    (upipe_ts_scte35g_time_signal s = { s with
      urefs := rest
      scte35_sections := s.scte35_sections ++
        [{ ubuf := u.pts_prog.map fun _ =>
             scte35g_time_signal_section u.pts_prog rest
           immediate := some (scte35g_time_signal_section u.pts_prog rest)
           cr_sys := u.pts_sys.getD 0 }]
      scte35_cr_sys := 0 }) ∧
    scte35g_insert_section u.cancel (u.event_id.getD 0) u.out_of_network
      none u.duration u.auto_return (u.unique_program_id.getD 0) ≠ [] ∧
    scte35g_time_signal_section u.pts_prog rest ≠ [] := by
  refine ⟨?_, ?_, scte35g_insert_section_ne_nil _ _ _ _ _ _ _,
    scte35g_time_signal_section_ne_nil _ _⟩
  · rw [upipe_ts_scte35g_input_insert, hu]
  · rw [upipe_ts_scte35g_time_signal, hu]

/-- A complete TIME_SIGNAL event with a scheduled splice point. -/
def c5_uref : Uref :=
  { command_type := some SCTE35_TIME_SIGNAL_COMMAND
    pts_prog := some 9000000
    duration := none
    pts_sys := some 5000000
    event_id := none
    cancel := false
    out_of_network := false
    auto_return := false
    unique_program_id := none
    start := true
    end_ := true
    descriptor := none }

/-- Accumulator holding that event, empty pending queue. -/
def c5_state : upipe_ts_scte35g :=
  { c6_bug_state with scte35_sections := [], urefs := [c5_uref] }

/-- Witness for C5: the time_signal synthesis at the concrete state. -/
theorem upipe_ts_scte35g_synthesis_message_witness :
    upipe_ts_scte35g_time_signal c5_state = { c5_state with
      urefs := []
      scte35_sections :=
        [{ ubuf := c5_uref.pts_prog.map fun _ =>
             scte35g_time_signal_section c5_uref.pts_prog []
           immediate := some (scte35g_time_signal_section c5_uref.pts_prog
             [])
           cr_sys := c5_uref.pts_sys.getD 0 }]
      scte35_cr_sys := 0 } ∧
    scte35g_time_signal_section c5_uref.pts_prog [] ≠ [] := by
  obtain ⟨_, h2, _, h4⟩ :=
    upipe_ts_scte35g_synthesis_message c5_state c5_uref [] rfl
  exact ⟨h2, h4⟩

/-- Counterexample to C5 as stated: for a TIME_SIGNAL event with a
present `pts_prog`, the Message's "immediate" slot holds the very same
bytes as the scheduled form — `time_specified_flag` is 1 (byte 14, bit
7), so the immediate form is NOT a "no-PTS" serialization. -/
theorem upipe_ts_scte35g_time_signal_immediate_has_pts :
    ((upipe_ts_scte35g_time_signal c5_state).scte35_sections.map
        fun m => m.immediate) =
      ((upipe_ts_scte35g_time_signal c5_state).scte35_sections.map
        fun m => m.ubuf) ∧
    ((upipe_ts_scte35g_time_signal c5_state).scte35_sections.map
        fun m => ((m.immediate.getD []).getD 14 0) / 128 % 2) = [1] := by
  decide
